import Mathlib

/-! # Quality Diagnostics Engine: shallow embedding

Shallow embedding of `src/client/src/lib/qualityDetection.ts` (the revised
detectors: `AudioQualityDetector`, `VideoQualityDetector`,
`NetworkQualityDetector`, plus `audioStatusToScore`, `videoStatusToScore`,
`calculateQualityScore` and `calculateOverallStatus`).

JS numbers are modelled as rationals (`ℚ`).  `Math.sqrt` is irrational on most
rationals, so it is modelled as an explicit function parameter `sq : ℚ → ℚ`
threaded through every definition in which the source takes a square root;
theorems that need facts about square roots assume them as hypotheses
(nonnegativity on nonnegative arguments, positivity on positive arguments).
Where the source would produce `NaN` from `0/0` (guarded at every call site
relevant to the verified properties), `ℚ` division yields `0`; each such spot
is noted in a comment.  The mutable object state of each detector class is
passed explicitly (rolling windows, last byte count / timestamp), and each
`analyze` method returns its result together with the updated state.
-/

namespace QualityDetection

/-- JS `Math.round`: round half toward positive infinity, `⌊x + 1/2⌋`. -/
def jsRound (q : ℚ) : ℚ := (⌊q + 1/2⌋ : ℤ)

/-- The repeated source idiom
`hist.push(x); if (hist.length > cap) hist.shift();`. -/
def pushWindow (hist : List ℚ) (x : ℚ) (cap : ℕ) : List ℚ :=
  let h1 := hist ++ [x]
  if cap < h1.length then h1.tail else h1

-- ============================================================================
-- Audio Quality Detection
-- ============================================================================

inductive AudioStatus
  | ok
  | tooQuiet
  | tooLoud
  | backgroundNoise
  | clipping
  deriving DecidableEq

/-- The status string literals of `AudioAnalysis["status"]`. -/
def AudioStatus.str : AudioStatus → String
  | .ok => "OK"
  | .tooQuiet => "Too Quiet"
  | .tooLoud => "Too Loud"
  | .backgroundNoise => "Background Noise"
  | .clipping => "Clipping"

structure AudioAnalysis where
  rms : ℚ
  clipping : Bool
  clippingPercent : ℚ
  noiseFloor : ℚ
  microphoneType : String
  status : AudioStatus
  deriving DecidableEq

/-- A byte of the input `Uint8Array`, normalized as in the source:
`(samples[i] - 128) / 128`. -/
def normalizeByte (s : ℤ) : ℚ := (s - 128) / 128

namespace AudioQualityDetector

/-- Source `AudioQualityDetector.calculateRMS`: mean of squared normalized samples,
skipping the first and last 10 entries, square-rooted, capped at 1. -/
def calculateRMS (sq : ℚ → ℚ) (samples : List ℤ) : ℚ :=
  let core := (samples.drop 10).take (samples.length - 20)
  let sum := (core.map (fun s => normalizeByte s ^ 2)).sum
  let count := core.length
  let rms := if 0 < count then sq (sum / count) else 0
  min rms 1

/-- Source `AudioQualityDetector.detectClipping`: percentage of samples whose
normalized magnitude is at least 0.95.  (On an empty buffer the source
computes `0/0 = NaN`; here `0/0 = 0`.) -/
def detectClipping (samples : List ℤ) : ℚ :=
  let clipCount := samples.countP (fun s => decide ((95 : ℚ)/100 ≤ |normalizeByte s|))
  ((clipCount : ℚ) / (samples.length : ℚ)) * 100

/-- Source `AudioQualityDetector.estimateNoiseFloor`: 5th-percentile normalized
magnitude (`sorted[Math.floor(length * 0.05)] || 0`). -/
def estimateNoiseFloor (samples : List ℤ) : ℚ :=
  let sorted := (samples.map (fun s => |normalizeByte s|)).insertionSort (· ≤ ·)
  let noiseIndex := samples.length * 5 / 100
  sorted.getD noiseIndex 0

/-- Source `AudioQualityDetector.detectBackgroundNoise`: percentage of samples whose
normalized magnitude lies strictly between `noiseFloor * 1.15` and 0.3.
(On an empty buffer the source computes `0/0 = NaN`; here `0/0 = 0`.) -/
def detectBackgroundNoise (samples : List ℤ) (noiseFloor : ℚ) : ℚ :=
  let noiseThreshold := noiseFloor * (1 + 15/100)
  let noiseCount := samples.countP
    (fun s => decide (noiseThreshold < |normalizeByte s| ∧ |normalizeByte s| < 3/10))
  ((noiseCount : ℚ) / (samples.length : ℚ)) * 100

/-- Source `AudioQualityDetector.analyze`.  `input = none` models a null
`this.analyser` (the early return); `input = some samples` models the byte
buffer filled by `getByteFrequencyData`.  `rmsWindow` is the rolling RMS window of the instance (`this.rmsWindow`, capacity `this.windowSize = 512`);
the updated window is returned alongside the analysis. -/
def analyze (sq : ℚ → ℚ) (input : Option (List ℤ)) (rmsWindow : List ℚ) :
    AudioAnalysis × List ℚ :=
  match input with
  | none => (⟨0, false, 0, 0, "unknown", .ok⟩, rmsWindow)
  | some dataArray =>
    let rms := calculateRMS sq dataArray
    let clippingPercent := detectClipping dataArray
    let noiseFloor := estimateNoiseFloor dataArray
    let backgroundNoiseRatio := detectBackgroundNoise dataArray noiseFloor
    let rmsWindow1 := pushWindow rmsWindow rms 512
    -- Priority: Clipping > Too Loud > Too Quiet > Background Noise > OK
    let status : AudioStatus :=
      if 5 < clippingPercent then .clipping
      else if 7/10 < rms then .tooLoud
      else if rms < 1/100 then .tooQuiet
      else if 40 < backgroundNoiseRatio ∧ rms < 8/100 then .backgroundNoise
      else .ok
    (⟨rms, decide (5 < clippingPercent), clippingPercent, noiseFloor, "unknown", status⟩,
     rmsWindow1)

end AudioQualityDetector

-- ============================================================================
-- Video Quality Detection
-- ============================================================================

inductive VideoStatus
  | ok
  | tooDark
  | overexposed
  | unevenLighting
  | adjustCamera
  deriving DecidableEq

/-- The status string literals of `VideoAnalysis["status"]`. -/
def VideoStatus.str : VideoStatus → String
  | .ok => "OK"
  | .tooDark => "Too Dark"
  | .overexposed => "Overexposed"
  | .unevenLighting => "Uneven Lighting"
  | .adjustCamera => "Adjust Camera"

structure VideoAnalysis where
  brightness : ℚ
  uniformityScore : ℚ
  uniformityStandardDev : ℚ
  faceDetected : Bool
  facePercentOfFrame : ℚ
  status : VideoStatus
  deriving DecidableEq

namespace VideoQualityDetector

/-- Source `VideoQualityDetector.calculateAverageBrightness`. -/
def calculateAverageBrightness (luminances : List ℚ) : ℚ :=
  if luminances.length = 0 then 0
  else luminances.sum / (luminances.length : ℚ)

/-- Source `VideoQualityDetector.calculateUniformity`: `(score, stdDev)` where
`stdDev` is the population standard deviation of the cell luminances and
`score = 1 - min(stdDev / 255, 1)`. -/
def calculateUniformity (sq : ℚ → ℚ) (luminances : List ℚ) : ℚ × ℚ :=
  if luminances.length = 0 then (1, 0)
  else
    let mean := luminances.sum / (luminances.length : ℚ)
    let variance := (luminances.map (fun v => (v - mean) ^ 2)).sum / (luminances.length : ℚ)
    let stdDev := sq variance
    let normalizedStdDev := min (stdDev / 255) 1
    (1 - normalizedStdDev, stdDev)

/-- Source `VideoQualityDetector.calculateFluctuation`: mean absolute deviation of
the brightness history from its own mean; 0 below 2 points. -/
def calculateFluctuation (brightnessHistory : List ℚ) : ℚ :=
  if brightnessHistory.length < 2 then 0
  else
    let mean := brightnessHistory.sum / (brightnessHistory.length : ℚ)
    (brightnessHistory.map (fun b => |b - mean|)).sum / (brightnessHistory.length : ℚ)

/-- Source `VideoQualityDetector.analyze`.  `input = none` models a null
`this.canvas`/`this.ctx` (the early return, which leaves the brightness
history untouched); `input = some luminances` models the grid-cell luminance
list produced by `sampleBrightness`.  `brightnessHistory` is
`this.brightnessHistory` (capacity `HISTORY_SIZE = 10`). -/
def analyze (sq : ℚ → ℚ) (input : Option (List ℚ)) (brightnessHistory : List ℚ) :
    VideoAnalysis × List ℚ :=
  match input with
  | none => (⟨0, 0, 0, false, 0, .ok⟩, brightnessHistory)
  | some luminances =>
    let brightness := calculateAverageBrightness luminances
    let u := calculateUniformity sq luminances
    let uniformityScore := u.1
    let uniformityStandardDev := u.2
    let history1 := pushWindow brightnessHistory brightness 10
    let brightnessFluctuation := calculateFluctuation history1
    let isFluctuating := 15 < brightnessFluctuation
    -- Priority: Overexposed > Too Dark > Uneven Lighting > Adjust Camera > OK
    let status : VideoStatus :=
      if 180 < brightness then .overexposed
      else if brightness < 30 then .tooDark
      else if 30 < uniformityStandardDev then .unevenLighting
      else if isFluctuating then .adjustCamera
      else .ok
    (⟨brightness, uniformityScore, uniformityStandardDev, false, 0, status⟩, history1)

end VideoQualityDetector

-- ============================================================================
-- Network Quality Detection
-- ============================================================================

inductive NetworkStatus
  | good
  | moderate
  | unstable
  | critical
  deriving DecidableEq

/-- The status string literals of `NetworkAnalysis["status"]`. -/
def NetworkStatus.str : NetworkStatus → String
  | .good => "Good"
  | .moderate => "Moderate"
  | .unstable => "Unstable"
  | .critical => "Critical"

structure NetworkAnalysis where
  bitrate : ℚ
  packetLoss : ℚ
  jitter : ℚ
  latency : ℚ
  framesPerSecond : ℚ
  frameDropRatio : ℚ
  bitrateStability : ℚ
  lossStability : ℚ
  jitterStability : ℚ
  rttStability : ℚ
  stabilityScore : ℚ
  status : NetworkStatus
  deriving DecidableEq

/-- The mutable state of a `NetworkQualityDetector` instance: last byte/time
bookkeeping plus the six rolling windows (capacity `HISTORY_WINDOW = 10`;
`jitterHistory` is declared by the source but never read or written). -/
structure NetState where
  lastBytesSent : ℚ
  lastTimestamp : ℚ
  bitrateHistory : List ℚ
  latencyHistory : List ℚ
  jitterHistory : List ℚ
  packetLossHistory : List ℚ
  fpsHistory : List ℚ
  frameDropHistory : List ℚ
  deriving DecidableEq

/-- One WebRTC stats snapshot, as consumed by the `stats.forEach` loop of
`NetworkQualityDetector.analyze`: the fields read off the single
`outbound-rtp` video report and the `candidate-pair` report; `none` models
`undefined`.  `now` is the value of `Date.now()` during the poll. -/
structure StatsSnapshot where
  bytesSent : Option ℚ
  packetsLost : Option ℚ
  packetsSent : Option ℚ
  framesPerSecond : Option ℚ
  framesDropped : Option ℚ
  framesSent : Option ℚ
  currentRoundTripTime : Option ℚ
  now : ℚ
  deriving DecidableEq

namespace NetworkQualityDetector

/-- Source `NetworkQualityDetector.calculateBitrate`. -/
def calculateBitrate (nowBytes prevBytes deltaTimeMs : ℚ) : ℚ :=
  if deltaTimeMs = 0 then 0
  else
    let deltaBytes := nowBytes - prevBytes
    let deltaSec := deltaTimeMs / 1000
    deltaBytes * 8 / deltaSec / 1000

/-- Source `NetworkQualityDetector.calculateStdDev`: population standard deviation;
0 below 2 points. -/
def calculateStdDev (sq : ℚ → ℚ) (values : List ℚ) : ℚ :=
  if values.length < 2 then 0
  else
    let mean := values.sum / (values.length : ℚ)
    sq ((values.map (fun v => (v - mean) ^ 2)).sum / (values.length : ℚ))

/-- Source `NetworkQualityDetector.calculateMedian`: median of a sorted copy;
0 on an empty array. -/
def calculateMedian (values : List ℚ) : ℚ :=
  if values.length = 0 then 0
  else
    let sorted := values.insertionSort (· ≤ ·)
    let mid := sorted.length / 2
    if sorted.length % 2 ≠ 0 then sorted.getD mid 0
    else (sorted.getD (mid - 1) 0 + sorted.getD mid 0) / 2

/-- Source `NetworkQualityDetector.calculateLossTrend`: one-sided slope of the last
3 packet-loss samples, floored at 0; 0 below 3 points. -/
def calculateLossTrend (packetLossHistory : List ℚ) : ℚ :=
  if packetLossHistory.length < 3 then 0
  else
    let recent := packetLossHistory.drop (packetLossHistory.length - 3)
    let trend := (recent.getD 2 0 - recent.getD 0 0) / 2
    max 0 trend

/-- Source `NetworkQualityDetector.getBitrateStability`. -/
def getBitrateStability (sq : ℚ → ℚ) (st : NetState) : ℚ :=
  calculateStdDev sq st.bitrateHistory

/-- Source `NetworkQualityDetector.getLossStability`. -/
def getLossStability (st : NetState) : ℚ :=
  calculateLossTrend st.packetLossHistory

/-- Source `NetworkQualityDetector.getJitterStability`. -/
def getJitterStability (sq : ℚ → ℚ) (st : NetState) : ℚ :=
  calculateStdDev sq st.latencyHistory

/-- Source `NetworkQualityDetector.getRttStability` (the source inlines the same
population-standard-deviation computation over the latency window). -/
def getRttStability (sq : ℚ → ℚ) (st : NetState) : ℚ :=
  if st.latencyHistory.length < 2 then 0
  else
    let mean := st.latencyHistory.sum / (st.latencyHistory.length : ℚ)
    sq ((st.latencyHistory.map (fun v => (v - mean) ^ 2)).sum /
      (st.latencyHistory.length : ℚ))

/-- Source `NetworkQualityDetector.calculateStabilityScore`: weighted composite of
current-conditions and stability components, with a frame-drop penalty
branch.  Mirrors the source exactly, including that `dropNorm` is computed
but never used, and that the penalty branch returns
`Math.max(0, finalScore - penalty)` without rounding. -/
def calculateStabilityScore (sq : ℚ → ℚ) (st : NetState)
    (currentBitrate currentPacketLoss currentLatency fps frameDropRatio : ℚ) : ℚ :=
  let bitrateNorm := min (currentBitrate / 1500) 1
  let lossNorm := max (1 - currentPacketLoss / 5) 0
  let latencyNorm := max (1 - currentLatency / 500) 0
  let fpsNorm := min (fps / 30) 1
  let _dropNorm := max (1 - frameDropRatio / (2/10)) 0
  let bitrateStability := getBitrateStability sq st
  let lossStability := getLossStability st
  let jitterStability := getJitterStability sq st
  let rttStability := getRttStability sq st
  let bitrateStabilityNorm := max (1 - bitrateStability / 500) 0
  let lossStabilityNorm := max (1 - lossStability / 2) 0
  let jitterStabilityNorm := max (1 - jitterStability / 100) 0
  let rttStabilityNorm := max (1 - rttStability / 200) 0
  let stabilityComponent :=
    (35/100) * bitrateStabilityNorm + (30/100) * lossStabilityNorm +
    (20/100) * jitterStabilityNorm + (15/100) * rttStabilityNorm
  let currentMetricsScore :=
    (25/100) * bitrateNorm + (25/100) * lossNorm +
    (25/100) * latencyNorm + (25/100) * fpsNorm
  let finalScore := (currentMetricsScore * (4/10) + stabilityComponent * (6/10)) * 100
  if 1/10 < frameDropRatio then
    max 0 (finalScore - (frameDropRatio - 1/10) * 100)
  else
    jsRound (max 0 (min 100 finalScore))

/-- The status-resolution block at the end of
`NetworkQualityDetector.analyze` (`isCritical` / `isUnstable` /
`isModerate`, first match wins). -/
def netStatus (bitrate packetLoss latency framesPerSecond frameDropRatio
    jitter bitrateStability lossStability : ℚ) : NetworkStatus :=
  if bitrate < 250 ∨ 2 < packetLoss ∨ 300 < latency ∨
      framesPerSecond < 20 ∨ 1/10 < frameDropRatio then .critical
  else if bitrate < 500 ∨ 1 < packetLoss ∨ 200 < latency ∨ 30 < jitter ∨
      200 < bitrateStability ∨ 1 < lossStability then .unstable
  else if bitrate < 1000 ∨ 100 < latency ∨ framesPerSecond < 24 then .moderate
  else .good

/-- The `outbound-rtp` bitrate bookkeeping of `analyze`: when `bytesSent` is
present and the elapsed time is positive, compute the bitrate, push it, and
update `lastBytesSent` / `lastTimestamp`. -/
def bitrateStep (snap : StatsSnapshot) (st : NetState) : ℚ × NetState :=
  match snap.bytesSent with
  | none => (0, st)
  | some bs =>
    let deltaTime := snap.now - st.lastTimestamp
    if 0 < deltaTime then
      let b := calculateBitrate bs st.lastBytesSent deltaTime
      (b, { st with bitrateHistory := pushWindow st.bitrateHistory b 10,
                    lastBytesSent := bs, lastTimestamp := snap.now })
    else (0, st)

/-- The `framesPerSecond` bookkeeping of `analyze`. -/
def fpsStep (snap : StatsSnapshot) (st : NetState) : ℚ × NetState :=
  match snap.framesPerSecond with
  | none => (0, st)
  | some f => (f, { st with fpsHistory := pushWindow st.fpsHistory f 10 })

/-- The `framesDropped`/`framesSent` read of `analyze`: both must be present
(`(framesDropped, totalFrames)`). -/
def framesInfo (snap : StatsSnapshot) : ℚ × ℚ :=
  match snap.framesDropped, snap.framesSent with
  | some fd, some fs => (fd, fs + fd)
  | _, _ => (0, 0)

/-- The `candidate-pair` latency bookkeeping of `analyze`:
`latency = currentRoundTripTime * 1000`, pushed onto the latency window. -/
def latencyStep (snap : StatsSnapshot) (st : NetState) : ℚ × NetState :=
  match snap.currentRoundTripTime with
  | none => (0, st)
  | some rtt =>
    (rtt * 1000, { st with latencyHistory := pushWindow st.latencyHistory (rtt * 1000) 10 })

/-- Source `NetworkQualityDetector.analyze`.  `pc = none` models a null
`this.pc` (the early return with zeroed metrics and status `Good`);
`pc = some snap` models one poll over the stats snapshot.  Returns the
analysis together with the updated detector state. -/
def analyze (sq : ℚ → ℚ) (pc : Option StatsSnapshot) (st : NetState) :
    NetworkAnalysis × NetState :=
  match pc with
  | none => (⟨0, 0, 0, 0, 0, 0, 0, 0, 0, 0, 0, .good⟩, st)
  | some snap =>
    let pb := bitrateStep snap st
    let bitrate := pb.1
    let pf := fpsStep snap pb.2
    let framesPerSecond := pf.1
    let pfr := framesInfo snap
    let pl := latencyStep snap pf.2
    let latency := pl.1
    let st3 := pl.2
    let packetsLost := snap.packetsLost.getD 0
    let packetsSent := snap.packetsSent.getD 0
    -- packetLoss% (0 when no packets sent)
    let packetLoss := if 0 < packetsSent then packetsLost / packetsSent * 100 else 0
    let st4 := { st3 with packetLossHistory := pushWindow st3.packetLossHistory packetLoss 10 }
    -- frame drop ratio (0 when no frame counters)
    let frameDropRatio := if 0 < pfr.2 then pfr.1 / pfr.2 else 0
    let st5 := { st4 with frameDropHistory := pushWindow st4.frameDropHistory frameDropRatio 10 }
    -- jitter (variance in RTT)
    let jitter := calculateStdDev sq st5.latencyHistory
    let stabilityScore := calculateStabilityScore sq st5
      bitrate packetLoss latency framesPerSecond frameDropRatio
    let status := netStatus bitrate packetLoss latency framesPerSecond frameDropRatio
      jitter (getBitrateStability sq st5) (getLossStability st5)
    (⟨jsRound bitrate, jsRound (packetLoss * 100) / 100, jsRound jitter, jsRound latency,
      jsRound framesPerSecond, jsRound (frameDropRatio * 1000) / 1000,
      jsRound (getBitrateStability sq st5), jsRound (getLossStability st5 * 1000) / 1000,
      jsRound (getJitterStability sq st5), jsRound (getRttStability sq st5),
      stabilityScore, status⟩, st5)

end NetworkQualityDetector

-- ============================================================================
-- Unified Diagnostic Model with Weighted Quality Scoring
-- ============================================================================

structure QualityScore where
  audioScore : ℚ
  videoScore : ℚ
  networkScore : ℚ
  overallQuality : ℚ
  deriving DecidableEq

inductive OverallStatus
  | good
  | moderate
  | poor
  | critical
  deriving DecidableEq

/-- Source `audioStatusToScore`. -/
def audioStatusToScore (status : AudioStatus) (rms : ℚ) : ℚ :=
  if status = .ok then
    let optimalRange := |rms - 8/100|
    max 85 (100 - optimalRange * 500)
  else if status = .backgroundNoise then 70
  else if status = .tooQuiet then 50
  else if status = .tooLoud then 40
  else if status = .clipping then 0
  else 75

/-- Source `videoStatusToScore`. -/
def videoStatusToScore (status : VideoStatus) (uniformityScore : ℚ) : ℚ :=
  if status = .ok then jsRound (85 + uniformityScore * 15)
  else if status = .adjustCamera then 70
  else if status = .tooDark then 50
  else if status = .unevenLighting then 60
  else if status = .overexposed then 40
  else 75

/-- Source `calculateQualityScore`: weighted overall quality,
40% video + 40% audio + 20% network. -/
def calculateQualityScore (audio : AudioAnalysis) (video : VideoAnalysis)
    (network : NetworkAnalysis) : QualityScore :=
  let audioScore := audioStatusToScore audio.status audio.rms
  let videoScore := videoStatusToScore video.status video.uniformityScore
  let networkScore := network.stabilityScore
  let overallQuality := jsRound
    (videoScore * (4/10) + audioScore * (4/10) + networkScore * (2/10))
  ⟨jsRound audioScore, jsRound videoScore, jsRound networkScore,
   max 0 (min 100 overallQuality)⟩

def criticalStatuses : List String := ["Too Loud", "Too Dark", "Critical"]

def poorStatuses : List String := ["Too Quiet", "Overexposed", "Clipping", "Unstable"]

/-- Source `calculateOverallStatus`: severity lattice over the three raw statuses. -/
def calculateOverallStatus (audio : AudioAnalysis) (video : VideoAnalysis)
    (network : NetworkAnalysis) : OverallStatus :=
  if criticalStatuses.contains audio.status.str ∨
      criticalStatuses.contains video.status.str ∨
      criticalStatuses.contains network.status.str then .critical
  else if poorStatuses.contains audio.status.str ∨
      poorStatuses.contains video.status.str ∨
      poorStatuses.contains network.status.str then .poor
  else if audio.status = .ok ∧ video.status = .ok ∧ network.status = .good then .good
  else .moderate

end QualityDetection


-- ============================================================================
-- Shared helper definitions and lemmas
-- ============================================================================

namespace QualityDetection

/-- The identity map, used as a concrete instantiation of the abstract
square-root parameter in witnesses (it satisfies every order/sign fact a
square root enjoys). -/
def sqId : ℚ → ℚ := fun x => x

/-- A fresh `NetworkQualityDetector` state: zero byte/time bookkeeping and
empty windows. -/
def netState0 : NetState := ⟨0, 0, [], [], [], [], [], []⟩

/-- Source `getRttStability` and `getJitterStability` are the same computation on
the same latency window. -/
theorem rtt_eq_jitter (sq : ℚ → ℚ) (st : NetState) :
    NetworkQualityDetector.getRttStability sq st =
      NetworkQualityDetector.getJitterStability sq st := rfl

/-- C10: for every state of the latency-history window, the `rttStability`
computation returns exactly the same value as the `jitterStability`
computation, and hence every `NetworkAnalysis` produced by
`NetworkQualityDetector.analyze` has `rttStability = jitterStability`. -/
theorem c10_rtt_eq_jitter (sq : ℚ → ℚ) (pc : Option StatsSnapshot) (st : NetState) :
    (NetworkQualityDetector.analyze sq pc st).1.rttStability =
      (NetworkQualityDetector.analyze sq pc st).1.jitterStability ∧
    ∀ st2 : NetState, NetworkQualityDetector.getRttStability sq st2 =
      NetworkQualityDetector.getJitterStability sq st2 := by
  refine ⟨?_, fun st2 => rtt_eq_jitter sq st2⟩
  cases pc with
  | none => rfl
  | some snap => rfl

/-- C7 counterexample: the median helper applied to the single-element
window `[5]` returns `5`, not `0`, refuting "every statistics helper returns
0 on windows with fewer than 2 points". -/
theorem c7_counterexample :
    NetworkQualityDetector.calculateMedian [(5 : ℚ)] = 5 ∧ (5 : ℚ) ≠ 0 := by
  constructor
  · simp [NetworkQualityDetector.calculateMedian, List.insertionSort, List.orderedInsert]
  · norm_num

/-- C7 (amended): the standard-deviation, loss-trend and fluctuation helpers
return 0 on windows below their minimum size (2, 3 and 2 points); the median
and mean helpers return 0 only on the empty window and return the sole
element on a singleton window.  No division by zero is reached (each helper
guards its window size before dividing). -/
theorem c7_amended_stats_guards (sq : ℚ → ℚ) (xs : List ℚ) (x : ℚ) :
    (xs.length < 2 → NetworkQualityDetector.calculateStdDev sq xs = 0) ∧
    (xs.length < 3 → NetworkQualityDetector.calculateLossTrend xs = 0) ∧
    (xs.length = 0 → NetworkQualityDetector.calculateMedian xs = 0) ∧
    (xs.length = 0 → VideoQualityDetector.calculateAverageBrightness xs = 0) ∧
    (xs.length < 2 → VideoQualityDetector.calculateFluctuation xs = 0) ∧
    NetworkQualityDetector.calculateMedian [x] = x ∧
    VideoQualityDetector.calculateAverageBrightness [x] = x := by
  refine ⟨?_, ?_, ?_, ?_, ?_, ?_, ?_⟩
  · intro h; simp [NetworkQualityDetector.calculateStdDev, h]
  · intro h; simp [NetworkQualityDetector.calculateLossTrend, h]
  · intro h; simp [NetworkQualityDetector.calculateMedian, h]
  · intro h; simp [VideoQualityDetector.calculateAverageBrightness, h]
  · intro h; simp [VideoQualityDetector.calculateFluctuation, h]
  · simp [NetworkQualityDetector.calculateMedian, List.insertionSort, List.orderedInsert]
  · simp [VideoQualityDetector.calculateAverageBrightness]

/-- C7 witness: the guards evaluated at concrete windows. -/
theorem c7_witness :
    NetworkQualityDetector.calculateStdDev sqId [(4 : ℚ)] = 0 ∧
    NetworkQualityDetector.calculateLossTrend [(4 : ℚ), 9] = 0 ∧
    NetworkQualityDetector.calculateMedian ([] : List ℚ) = 0 ∧
    VideoQualityDetector.calculateAverageBrightness ([] : List ℚ) = 0 ∧
    VideoQualityDetector.calculateFluctuation [(4 : ℚ)] = 0 := by
  obtain ⟨h1, _, _, _, _, _, _⟩ := c7_amended_stats_guards sqId [(4 : ℚ)] 0
  obtain ⟨_, h2, _, _, _, _, _⟩ := c7_amended_stats_guards sqId [(4 : ℚ), 9] 0
  obtain ⟨_, _, h3, h4, _, _, _⟩ := c7_amended_stats_guards sqId ([] : List ℚ) 0
  obtain ⟨_, _, _, _, h5, _, _⟩ := c7_amended_stats_guards sqId [(4 : ℚ)] 0
  exact ⟨h1 (by norm_num), h2 (by norm_num), h3 rfl, h4 rfl, h5 (by norm_num)⟩

/-- C6: each analyzer, on an absent input source (null analyser node, null
canvas/context, null peer connection), returns a structurally valid result
with all numeric metrics zero and the most neutral status (`OK` for audio
and video, `Good` for network), leaving its rolling state untouched.  (In
this embedding the analyzers are total functions, so no exception can be
raised at all.) -/
theorem c6_degenerate_inputs (sq : ℚ → ℚ) (w vh : List ℚ) (st : NetState) :
    AudioQualityDetector.analyze sq none w = (⟨0, false, 0, 0, "unknown", .ok⟩, w) ∧
    VideoQualityDetector.analyze sq none vh = (⟨0, 0, 0, false, 0, .ok⟩, vh) ∧
    NetworkQualityDetector.analyze sq none st =
      (⟨0, 0, 0, 0, 0, 0, 0, 0, 0, 0, 0, .good⟩, st) := ⟨rfl, rfl, rfl⟩

end QualityDetection

namespace QualityDetection

/-- The concrete C2 scenario: a poll whose stats report zero bytes sent
(hence bitrate 0), no packet counters (hence packet loss 0), no round-trip
time (hence latency 0), 30 frames per second and no frame-drop counters
(hence frame-drop ratio 0), against a fresh detector state. -/
def c2snap : StatsSnapshot := ⟨some 0, none, none, some 30, none, none, none, 500⟩

/-- C2: the network status resolution is a first-match priority chain
(Critical, else Unstable, else Moderate, else Good) over exactly the
conditions stated, and the concrete all-ideal-but-zero-bitrate scenario
(bitrate 0, loss 0, latency 0, fps 30, frame-drop 0, no history) resolves
to `Critical`. -/
theorem c2_network_status_chain :
    (∀ b l lat f d j bs ls : ℚ,
      (NetworkQualityDetector.netStatus b l lat f d j bs ls = .critical ↔
        (b < 250 ∨ 2 < l ∨ 300 < lat ∨ f < 20 ∨ 1/10 < d)) ∧
      (NetworkQualityDetector.netStatus b l lat f d j bs ls = .unstable ↔
        (¬(b < 250 ∨ 2 < l ∨ 300 < lat ∨ f < 20 ∨ 1/10 < d) ∧
          (b < 500 ∨ 1 < l ∨ 200 < lat ∨ 30 < j ∨ 200 < bs ∨ 1 < ls))) ∧
      (NetworkQualityDetector.netStatus b l lat f d j bs ls = .moderate ↔
        (¬(b < 250 ∨ 2 < l ∨ 300 < lat ∨ f < 20 ∨ 1/10 < d) ∧
          ¬(b < 500 ∨ 1 < l ∨ 200 < lat ∨ 30 < j ∨ 200 < bs ∨ 1 < ls) ∧
          (b < 1000 ∨ 100 < lat ∨ f < 24))) ∧
      (NetworkQualityDetector.netStatus b l lat f d j bs ls = .good ↔
        (¬(b < 250 ∨ 2 < l ∨ 300 < lat ∨ f < 20 ∨ 1/10 < d) ∧
          ¬(b < 500 ∨ 1 < l ∨ 200 < lat ∨ 30 < j ∨ 200 < bs ∨ 1 < ls) ∧
          ¬(b < 1000 ∨ 100 < lat ∨ f < 24)))) ∧
    (NetworkQualityDetector.analyze sqId (some c2snap) netState0).1.status = .critical := by
  constructor
  · intro b l lat f d j bs ls
    unfold NetworkQualityDetector.netStatus
    split_ifs with h1 h2 h3 <;> refine ⟨?_, ?_, ?_, ?_⟩ <;> simp_all
  · norm_num [NetworkQualityDetector.analyze, NetworkQualityDetector.bitrateStep,
      NetworkQualityDetector.fpsStep, NetworkQualityDetector.framesInfo,
      NetworkQualityDetector.latencyStep, NetworkQualityDetector.calculateBitrate,
      NetworkQualityDetector.netStatus, NetworkQualityDetector.calculateStdDev,
      NetworkQualityDetector.getBitrateStability, NetworkQualityDetector.getLossStability,
      NetworkQualityDetector.calculateLossTrend, pushWindow, c2snap, netState0, sqId]

end QualityDetection

namespace QualityDetection

/-- C3: the overall status is a severity lattice over the three raw
statuses: any status whose string lies in the critical set
{"Too Loud", "Too Dark", "Critical"} forces `Critical`; else any status in
the poor set {"Too Quiet", "Overexposed", "Clipping", "Unstable"} forces
`Poor`; else exactly `OK`, `OK`, `Good` forces `Good`; otherwise
`Moderate`.  (Stated over the per-analyzer enums: of the critical set only
`Too Loud` is an audio status, only `Too Dark` a video status and only
`Critical` a network status, and similarly for the poor set.) -/
theorem c3_overall_status_lattice (audio : AudioAnalysis) (video : VideoAnalysis)
    (network : NetworkAnalysis) :
    (calculateOverallStatus audio video network = .critical ↔
      (audio.status = .tooLoud ∨ video.status = .tooDark ∨ network.status = .critical)) ∧
    (calculateOverallStatus audio video network = .poor ↔
      (¬(audio.status = .tooLoud ∨ video.status = .tooDark ∨ network.status = .critical) ∧
        (audio.status = .tooQuiet ∨ audio.status = .clipping ∨
          video.status = .overexposed ∨ network.status = .unstable))) ∧
    (calculateOverallStatus audio video network = .good ↔
      (¬(audio.status = .tooLoud ∨ video.status = .tooDark ∨ network.status = .critical) ∧
        ¬(audio.status = .tooQuiet ∨ audio.status = .clipping ∨
          video.status = .overexposed ∨ network.status = .unstable) ∧
        (audio.status = .ok ∧ video.status = .ok ∧ network.status = .good))) ∧
    (calculateOverallStatus audio video network = .moderate ↔
      (¬(audio.status = .tooLoud ∨ video.status = .tooDark ∨ network.status = .critical) ∧
        ¬(audio.status = .tooQuiet ∨ audio.status = .clipping ∨
          video.status = .overexposed ∨ network.status = .unstable) ∧
        ¬(audio.status = .ok ∧ video.status = .ok ∧ network.status = .good))) := by
  obtain ⟨ra, ca, pa, na, ma, sa⟩ := audio
  obtain ⟨bv, uv, dv, fv, pv, sv⟩ := video
  obtain ⟨b1, b2, b3, b4, b5, b6, b7, b8, b9, b10, b11, sn⟩ := network
  cases sa <;> cases sv <;> cases sn <;>
    simp [calculateOverallStatus, criticalStatuses, poorStatuses,
      AudioStatus.str, VideoStatus.str, NetworkStatus.str]

end QualityDetection

namespace QualityDetection

/-- C5: audio status resolution is a strict first-match priority chain over
the values computed from the input buffer (clipping percentage, RMS,
background-noise ratio), and in particular any buffer with more than 5% of
samples at normalized magnitude at least 0.95 — i.e. with
`detectClipping > 5` — yields `Clipping` regardless of its RMS. -/
theorem c5_audio_status_chain (sq : ℚ → ℚ) (samples : List ℤ) (w : List ℚ) :
    (((AudioQualityDetector.analyze sq (some samples) w).1.status = .clipping) ↔
      5 < AudioQualityDetector.detectClipping samples) ∧
    (((AudioQualityDetector.analyze sq (some samples) w).1.status = .tooLoud) ↔
      (¬ 5 < AudioQualityDetector.detectClipping samples ∧
        7/10 < AudioQualityDetector.calculateRMS sq samples)) ∧
    (((AudioQualityDetector.analyze sq (some samples) w).1.status = .tooQuiet) ↔
      (¬ 5 < AudioQualityDetector.detectClipping samples ∧
        ¬ 7/10 < AudioQualityDetector.calculateRMS sq samples ∧
        AudioQualityDetector.calculateRMS sq samples < 1/100)) ∧
    (((AudioQualityDetector.analyze sq (some samples) w).1.status = .backgroundNoise) ↔
      (¬ 5 < AudioQualityDetector.detectClipping samples ∧
        ¬ 7/10 < AudioQualityDetector.calculateRMS sq samples ∧
        ¬ AudioQualityDetector.calculateRMS sq samples < 1/100 ∧
        (40 < AudioQualityDetector.detectBackgroundNoise samples
            (AudioQualityDetector.estimateNoiseFloor samples) ∧
          AudioQualityDetector.calculateRMS sq samples < 8/100))) ∧
    (((AudioQualityDetector.analyze sq (some samples) w).1.status = .ok) ↔
      (¬ 5 < AudioQualityDetector.detectClipping samples ∧
        ¬ 7/10 < AudioQualityDetector.calculateRMS sq samples ∧
        ¬ AudioQualityDetector.calculateRMS sq samples < 1/100 ∧
        ¬(40 < AudioQualityDetector.detectBackgroundNoise samples
            (AudioQualityDetector.estimateNoiseFloor samples) ∧
          AudioQualityDetector.calculateRMS sq samples < 8/100))) ∧
    (5 < AudioQualityDetector.detectClipping samples →
      (AudioQualityDetector.analyze sq (some samples) w).1.status = .clipping) := by
  have hs : (AudioQualityDetector.analyze sq (some samples) w).1.status =
      (if 5 < AudioQualityDetector.detectClipping samples then AudioStatus.clipping
       else if 7/10 < AudioQualityDetector.calculateRMS sq samples then .tooLoud
       else if AudioQualityDetector.calculateRMS sq samples < 1/100 then .tooQuiet
       else if 40 < AudioQualityDetector.detectBackgroundNoise samples
              (AudioQualityDetector.estimateNoiseFloor samples) ∧
            AudioQualityDetector.calculateRMS sq samples < 8/100 then .backgroundNoise
       else .ok) := rfl
  rw [hs]
  split_ifs with h1 h2 h3 h4 <;> refine ⟨?_, ?_, ?_, ?_, ?_, ?_⟩ <;> simp_all

end QualityDetection

namespace QualityDetection

/-- C5 witness: a buffer whose every sample sits at full scale (normalized
magnitude 127/128 ≥ 0.95, clipping percentage 100 > 5) is classified
`Clipping`. -/
theorem c5_witness :
    (AudioQualityDetector.analyze sqId (some [255, 255]) []).1.status = .clipping := by
  apply (c5_audio_status_chain sqId [255, 255] []).2.2.2.2.2
  have habs : |(127 : ℚ)/128| = 127/128 := abs_of_pos (by norm_num)
  norm_num [AudioQualityDetector.detectClipping, List.countP, List.countP.go,
    normalizeByte, cond_eq_if, decide_eq_true_eq, habs]

/-- The per-deviation square sum in a population variance is nonnegative. -/
lemma devSum_nonneg (xs : List ℚ) (m : ℚ) :
    0 ≤ (xs.map (fun v => (v - m) ^ 2)).sum := by
  apply List.sum_nonneg
  intro y hy
  simp only [List.mem_map] at hy
  obtain ⟨v, _, rfl⟩ := hy
  positivity

/-- C8 counterexample: the degenerate (no canvas) `VideoAnalysis` has
`uniformityScore = 0` and `uniformityStandardDev = 0`, so it violates
`uniformityScore = 1 - min(stdDev/255, 1)` (the right-hand side is 1). -/
theorem c8_counterexample :
    (VideoQualityDetector.analyze sqId none []).1.uniformityScore ≠
      1 - min ((VideoQualityDetector.analyze sqId none []).1.uniformityStandardDev / 255) 1 := by
  norm_num [VideoQualityDetector.analyze]

/-- C8 (amended): every `VideoAnalysis` produced by the video analyzer with
a canvas present satisfies `uniformityScore = 1 - min(stdDev/255, 1)`, and
(for a square root that is nonnegative on nonnegative arguments)
`uniformityScore = 1` exactly when the standard deviation is 0.  The
degenerate no-canvas result instead zeroes both fields. -/
theorem c8_amended_uniformity_invariant (sq : ℚ → ℚ) (ls hist : List ℚ)
    (hsq : ∀ x, 0 ≤ x → 0 ≤ sq x) :
    (VideoQualityDetector.analyze sq (some ls) hist).1.uniformityScore =
      1 - min ((VideoQualityDetector.analyze sq (some ls) hist).1.uniformityStandardDev / 255) 1 ∧
    ((VideoQualityDetector.analyze sq (some ls) hist).1.uniformityScore = 1 ↔
      (VideoQualityDetector.analyze sq (some ls) hist).1.uniformityStandardDev = 0) := by
  have h1 : (VideoQualityDetector.analyze sq (some ls) hist).1.uniformityScore =
      (VideoQualityDetector.calculateUniformity sq ls).1 := rfl
  have h2 : (VideoQualityDetector.analyze sq (some ls) hist).1.uniformityStandardDev =
      (VideoQualityDetector.calculateUniformity sq ls).2 := rfl
  rw [h1, h2]
  by_cases h : ls.length = 0
  · have e1 : VideoQualityDetector.calculateUniformity sq ls = (1, 0) := by
      unfold VideoQualityDetector.calculateUniformity
      rw [if_pos h]
    rw [e1]
    norm_num
  · have e2 : VideoQualityDetector.calculateUniformity sq ls =
        (1 - min (sq ((ls.map (fun v => (v - ls.sum / (ls.length : ℚ)) ^ 2)).sum /
          (ls.length : ℚ)) / 255) 1,
         sq ((ls.map (fun v => (v - ls.sum / (ls.length : ℚ)) ^ 2)).sum /
          (ls.length : ℚ))) := by
      unfold VideoQualityDetector.calculateUniformity
      rw [if_neg h]
    rw [e2]
    have hv : 0 ≤ sq ((ls.map (fun v => (v - ls.sum / (ls.length : ℚ)) ^ 2)).sum /
        (ls.length : ℚ)) :=
      hsq _ (div_nonneg (devSum_nonneg ls _) (Nat.cast_nonneg _))
    set s := sq ((ls.map (fun v => (v - ls.sum / (ls.length : ℚ)) ^ 2)).sum /
        (ls.length : ℚ)) with hs
    refine ⟨rfl, ?_, ?_⟩
    · intro hone
      have hmin : min (s / 255) 1 = 0 := by
        simp only at hone
        linarith
      rcases min_eq_iff.mp hmin with ⟨ha, _⟩ | ⟨hb, _⟩
      · have : (0:ℚ) ≤ s / 255 := div_nonneg hv (by norm_num)
        linarith
      · norm_num at hb
    · intro hzero
      have hz : s = 0 := hzero
      rw [hz]
      norm_num

/-- C8 witness: a perfectly uniform luminance grid satisfies the amended
invariant. -/
theorem c8_witness :
    (VideoQualityDetector.analyze sqId (some [100, 100]) []).1.uniformityScore =
      1 - min ((VideoQualityDetector.analyze sqId (some [100, 100]) []).1.uniformityStandardDev
        / 255) 1 ∧
    ((VideoQualityDetector.analyze sqId (some [100, 100]) []).1.uniformityScore = 1 ↔
      (VideoQualityDetector.analyze sqId (some [100, 100]) []).1.uniformityStandardDev = 0) :=
  c8_amended_uniformity_invariant sqId [100, 100] [] (fun _ h => h)

end QualityDetection

namespace QualityDetection

/-- Source `jsRound` is monotone. -/
lemma jsRound_mono {a b : ℚ} (h : a ≤ b) : jsRound a ≤ jsRound b := by
  unfold jsRound
  exact_mod_cast Int.floor_le_floor (by linarith)

/-- Source `jsRound` of a nonnegative rational is nonnegative. -/
lemma jsRound_nonneg {a : ℚ} (h : 0 ≤ a) : 0 ≤ jsRound a := by
  unfold jsRound
  exact_mod_cast Int.le_floor.mpr (by push_cast; linarith)

/-- Source `jsRound` never exceeds 100 on arguments at most 100. -/
lemma jsRound_le_100 {a : ℚ} (h : a ≤ 100) : jsRound a ≤ 100 := by
  have h1 : jsRound a ≤ jsRound 100 := jsRound_mono h
  have h2 : jsRound (100 : ℚ) = 100 := by norm_num [jsRound]
  linarith [h1, h2.le]

/-- The standard-deviation helper is nonnegative whenever the square-root
parameter is nonnegative on nonnegative arguments. -/
lemma calculateStdDev_nonneg (sq : ℚ → ℚ) (hsq : ∀ x, 0 ≤ x → 0 ≤ sq x)
    (values : List ℚ) : 0 ≤ NetworkQualityDetector.calculateStdDev sq values := by
  unfold NetworkQualityDetector.calculateStdDev
  split_ifs with h
  · exact le_rfl
  · dsimp only
    exact hsq _ (div_nonneg (devSum_nonneg values _) (Nat.cast_nonneg _))

/-- The loss-trend helper is nonnegative (it is floored at 0). -/
lemma calculateLossTrend_nonneg (xs : List ℚ) :
    0 ≤ NetworkQualityDetector.calculateLossTrend xs := by
  unfold NetworkQualityDetector.calculateLossTrend
  split_ifs with h
  · exact le_rfl
  · dsimp only
    exact le_max_left _ _

/-- Modelled from the claim wording for C1 (as amended): the
current-conditions component is the equal-weight mean of
`min(bitrate/1500,1)`, `max(1-loss/5,0)`, `max(1-rtt/500,0)`,
`min(fps/30,1)`; the stability component weights `max(1-raw/scale,0)`
(scales 500/2/100/200) by 0.35/0.30/0.20/0.15; the final score is
`(0.4*current + 0.6*stability)*100`; if `frameDropRatio` exceeds 0.10 the
penalty `(frameDropRatio-0.10)*100` is subtracted and the result floored at
0 (without rounding); otherwise the score is clamped to [0,100] and
rounded. -/
def specStabilityScore (bitrate loss rtt fps frameDropRatio bStab lStab jStab rStab : ℚ) : ℚ :=
  let current := (min (bitrate / 1500) 1 + max (1 - loss / 5) 0 +
    max (1 - rtt / 500) 0 + min (fps / 30) 1) / 4
  let stability := (35/100) * max (1 - bStab / 500) 0 + (30/100) * max (1 - lStab / 2) 0 +
    (20/100) * max (1 - jStab / 100) 0 + (15/100) * max (1 - rStab / 200) 0
  let score := ((4/10) * current + (6/10) * stability) * 100
  if 1/10 < frameDropRatio then max 0 (score - (frameDropRatio - 1/10) * 100)
  else jsRound (max 0 (min 100 score))

end QualityDetection

namespace QualityDetection

/-- C1 counterexample: at bitrate 1500, loss 0, latency 0, fps 30 and
frameDropRatio 1/8 (12.5%) with empty history, the penalty branch returns
`100 - 2.5 = 195/2`, whose denominator is 2 — the returned score is *not*
rounded to an integer, refuting the "for every input the returned score is
... rounded" part of the claim. -/
theorem c1_counterexample :
    NetworkQualityDetector.calculateStabilityScore sqId netState0 1500 0 0 30 (1/8) = 195/2 ∧
    ((195 : ℚ)/2).den ≠ 1 := by
  constructor
  · norm_num [NetworkQualityDetector.calculateStabilityScore,
      NetworkQualityDetector.getBitrateStability, NetworkQualityDetector.getLossStability,
      NetworkQualityDetector.getJitterStability, NetworkQualityDetector.getRttStability,
      NetworkQualityDetector.calculateStdDev, NetworkQualityDetector.calculateLossTrend,
      netState0, sqId]
  · norm_num

/-- C1 (amended): the stability score is exactly the claimed weighted
formula over the current metrics and the four history-derived stability
metrics; when `frameDropRatio ≤ 0.10` the result is clamped to [0,100] and
rounded, while in the penalty branch the result is floored at 0 but not
rounded.  For a square root nonnegative on nonnegative arguments and
nonnegative inputs, the returned score always lies in [0,100]. -/
theorem c1_amended_stability_score (sq : ℚ → ℚ) (st : NetState) (b l lat f d : ℚ) :
    NetworkQualityDetector.calculateStabilityScore sq st b l lat f d =
      specStabilityScore b l lat f d
        (NetworkQualityDetector.getBitrateStability sq st)
        (NetworkQualityDetector.getLossStability st)
        (NetworkQualityDetector.getJitterStability sq st)
        (NetworkQualityDetector.getRttStability sq st) ∧
    ((∀ x, 0 ≤ x → 0 ≤ sq x) → 0 ≤ b → 0 ≤ l → 0 ≤ lat → 0 ≤ f → 0 ≤ d →
      0 ≤ NetworkQualityDetector.calculateStabilityScore sq st b l lat f d ∧
        NetworkQualityDetector.calculateStabilityScore sq st b l lat f d ≤ 100) := by
  constructor
  · simp only [NetworkQualityDetector.calculateStabilityScore, specStabilityScore]
    split_ifs with hd
    · congr 1
      ring
    · congr 1
      congr 1
      congr 1
      ring
  · intro hsq hb hl hlat hf hd
    have hbs : 0 ≤ NetworkQualityDetector.getBitrateStability sq st :=
      calculateStdDev_nonneg sq hsq _
    have hls : 0 ≤ NetworkQualityDetector.getLossStability st :=
      calculateLossTrend_nonneg _
    have hjs : 0 ≤ NetworkQualityDetector.getJitterStability sq st :=
      calculateStdDev_nonneg sq hsq _
    have hrs : 0 ≤ NetworkQualityDetector.getRttStability sq st := by
      rw [rtt_eq_jitter]; exact hjs
    have h1 : 0 ≤ min (b / 1500) 1 := le_min (by positivity) zero_le_one
    have h1b : min (b / 1500) 1 ≤ 1 := min_le_right _ _
    have h2 : 0 ≤ max (1 - l / 5) 0 := le_max_right _ _
    have h2b : max (1 - l / 5) 0 ≤ 1 := max_le (by linarith) zero_le_one
    have h3 : 0 ≤ max (1 - lat / 500) 0 := le_max_right _ _
    have h3b : max (1 - lat / 500) 0 ≤ 1 := max_le (by linarith) zero_le_one
    have h4 : 0 ≤ min (f / 30) 1 := le_min (by positivity) zero_le_one
    have h4b : min (f / 30) 1 ≤ 1 := min_le_right _ _
    have h5 : 0 ≤ max (1 - NetworkQualityDetector.getBitrateStability sq st / 500) 0 :=
      le_max_right _ _
    have h5b : max (1 - NetworkQualityDetector.getBitrateStability sq st / 500) 0 ≤ 1 := by
      apply max_le _ zero_le_one
      have : 0 ≤ NetworkQualityDetector.getBitrateStability sq st / 500 := by positivity
      linarith
    have h6 : 0 ≤ max (1 - NetworkQualityDetector.getLossStability st / 2) 0 :=
      le_max_right _ _
    have h6b : max (1 - NetworkQualityDetector.getLossStability st / 2) 0 ≤ 1 := by
      apply max_le _ zero_le_one
      have : 0 ≤ NetworkQualityDetector.getLossStability st / 2 := by positivity
      linarith
    have h7 : 0 ≤ max (1 - NetworkQualityDetector.getJitterStability sq st / 100) 0 :=
      le_max_right _ _
    have h7b : max (1 - NetworkQualityDetector.getJitterStability sq st / 100) 0 ≤ 1 := by
      apply max_le _ zero_le_one
      have : 0 ≤ NetworkQualityDetector.getJitterStability sq st / 100 := by positivity
      linarith
    have h8 : 0 ≤ max (1 - NetworkQualityDetector.getRttStability sq st / 200) 0 :=
      le_max_right _ _
    have h8b : max (1 - NetworkQualityDetector.getRttStability sq st / 200) 0 ≤ 1 := by
      apply max_le _ zero_le_one
      have : 0 ≤ NetworkQualityDetector.getRttStability sq st / 200 := by positivity
      linarith
    simp only [NetworkQualityDetector.calculateStabilityScore]
    split_ifs with hdd
    · constructor
      · exact le_max_left _ _
      · apply max_le (by norm_num)
        nlinarith [h1, h1b, h2, h2b, h3, h3b, h4, h4b, h5, h5b, h6, h6b, h7, h7b, h8, h8b]
    · constructor
      · exact jsRound_nonneg (le_max_left _ _)
      · apply jsRound_le_100
        apply max_le (by norm_num)
        exact min_le_left _ _

/-- C1 witness: the amended formula and range evaluated at a concrete
input. -/
theorem c1_witness :
    NetworkQualityDetector.calculateStabilityScore sqId netState0 1500 0 0 30 (1/8) =
      specStabilityScore 1500 0 0 30 (1/8)
        (NetworkQualityDetector.getBitrateStability sqId netState0)
        (NetworkQualityDetector.getLossStability netState0)
        (NetworkQualityDetector.getJitterStability sqId netState0)
        (NetworkQualityDetector.getRttStability sqId netState0) ∧
    0 ≤ NetworkQualityDetector.calculateStabilityScore sqId netState0 1500 0 0 30 (1/8) ∧
    NetworkQualityDetector.calculateStabilityScore sqId netState0 1500 0 0 30 (1/8) ≤ 100 := by
  obtain ⟨heq, hrange⟩ := c1_amended_stability_score sqId netState0 1500 0 0 30 (1/8)
  exact ⟨heq, hrange (fun x h => h) (by norm_num) le_rfl le_rfl (by norm_num) (by norm_num)⟩

end QualityDetection

namespace QualityDetection

/-- C9: holding the instantaneous metrics and the other stability windows
fixed, a larger bitrate-window standard deviation never increases the
stability score. -/
theorem c9_stability_antitone (sq : ℚ → ℚ) (st1 st2 : NetState) (b l lat f d : ℚ)
    (hlat : st1.latencyHistory = st2.latencyHistory)
    (hpl : st1.packetLossHistory = st2.packetLossHistory)
    (hbs : NetworkQualityDetector.getBitrateStability sq st1 ≤
      NetworkQualityDetector.getBitrateStability sq st2) :
    NetworkQualityDetector.calculateStabilityScore sq st2 b l lat f d ≤
      NetworkQualityDetector.calculateStabilityScore sq st1 b l lat f d := by
  have els : NetworkQualityDetector.getLossStability st1 =
      NetworkQualityDetector.getLossStability st2 := by
    unfold NetworkQualityDetector.getLossStability
    rw [hpl]
  have ejs : NetworkQualityDetector.getJitterStability sq st1 =
      NetworkQualityDetector.getJitterStability sq st2 := by
    unfold NetworkQualityDetector.getJitterStability
    rw [hlat]
  have ers : NetworkQualityDetector.getRttStability sq st1 =
      NetworkQualityDetector.getRttStability sq st2 := by
    rw [rtt_eq_jitter, rtt_eq_jitter]
    exact ejs
  have hnorm : max (1 - NetworkQualityDetector.getBitrateStability sq st2 / 500) 0 ≤
      max (1 - NetworkQualityDetector.getBitrateStability sq st1 / 500) 0 :=
    max_le_max (by linarith) le_rfl
  have hmul : (35/100 : ℚ) *
      max (1 - NetworkQualityDetector.getBitrateStability sq st2 / 500) 0 ≤
      (35/100) * max (1 - NetworkQualityDetector.getBitrateStability sq st1 / 500) 0 :=
    mul_le_mul_of_nonneg_left hnorm (by norm_num)
  simp only [NetworkQualityDetector.calculateStabilityScore]
  rw [← els, ← ejs, ← ers]
  split_ifs with hdd
  · exact max_le_max le_rfl (by nlinarith [hmul])
  · apply jsRound_mono
    apply max_le_max le_rfl
    apply min_le_min le_rfl
    nlinarith [hmul]

/-- The C9 witness states: identical except that one bitrate window is
constant while the other swings between 0 and 1000 kbps. -/
def c9stA : NetState := ⟨0, 0, [0, 0], [], [], [], [], []⟩

def c9stB : NetState := ⟨0, 0, [0, 1000], [], [], [], [], []⟩

/-- C9 witness: the theorem applied at the two concrete states. -/
theorem c9_witness :
    NetworkQualityDetector.calculateStabilityScore sqId c9stB 1500 0 0 30 0 ≤
      NetworkQualityDetector.calculateStabilityScore sqId c9stA 1500 0 0 30 0 :=
  c9_stability_antitone sqId c9stA c9stB 1500 0 0 30 0 rfl rfl
    (by norm_num [NetworkQualityDetector.getBitrateStability,
      NetworkQualityDetector.calculateStdDev, c9stA, c9stB, sqId])

end QualityDetection

namespace QualityDetection

/-- Every network analysis produced from an actual poll carries a status and
score computed by `netStatus` and `calculateStabilityScore` over the same
raw metrics and post-poll state. -/
lemma analyze_fields (sq : ℚ → ℚ) (snap : StatsSnapshot) (st : NetState) :
    ∃ (st5 : NetState) (b l lat f d : ℚ),
      (NetworkQualityDetector.analyze sq (some snap) st).1.status =
        NetworkQualityDetector.netStatus b l lat f d
          (NetworkQualityDetector.calculateStdDev sq st5.latencyHistory)
          (NetworkQualityDetector.getBitrateStability sq st5)
          (NetworkQualityDetector.getLossStability st5) ∧
      (NetworkQualityDetector.analyze sq (some snap) st).1.stabilityScore =
        NetworkQualityDetector.calculateStabilityScore sq st5 b l lat f d :=
  ⟨_, _, _, _, _, _, rfl, rfl⟩

/-- If the status chain resolves to `Good`, every metric satisfies its
`Good`-tier bound, and the stability score is at least 68. -/
lemma netGood_score_bound (sq : ℚ → ℚ) (st : NetState) (b l lat f d : ℚ)
    (h : NetworkQualityDetector.netStatus b l lat f d
      (NetworkQualityDetector.calculateStdDev sq st.latencyHistory)
      (NetworkQualityDetector.getBitrateStability sq st)
      (NetworkQualityDetector.getLossStability st) = .good) :
    68 ≤ NetworkQualityDetector.calculateStabilityScore sq st b l lat f d := by
  unfold NetworkQualityDetector.netStatus at h
  split_ifs at h with h1 h2 h3
  case _ =>
    push_neg at h1 h2 h3
    obtain ⟨hb1, hl1, hlat1, hf1, hd1⟩ := h1
    obtain ⟨hb2, hl2, hlat2, hj2, hbs2, hls2⟩ := h2
    obtain ⟨hb3, hlat3, hf3⟩ := h3
    have n1 : (2/3 : ℚ) ≤ min (b / 1500) 1 := le_min (by linarith) (by norm_num)
    have n2 : (4/5 : ℚ) ≤ max (1 - l / 5) 0 :=
      le_trans (by linarith) (le_max_left _ _)
    have n3 : (4/5 : ℚ) ≤ max (1 - lat / 500) 0 :=
      le_trans (by linarith) (le_max_left _ _)
    have n4 : (4/5 : ℚ) ≤ min (f / 30) 1 := le_min (by linarith) (by norm_num)
    have m1 : (3/5 : ℚ) ≤
        max (1 - NetworkQualityDetector.getBitrateStability sq st / 500) 0 :=
      le_trans (by linarith) (le_max_left _ _)
    have m2 : (1/2 : ℚ) ≤
        max (1 - NetworkQualityDetector.getLossStability st / 2) 0 :=
      le_trans (by linarith) (le_max_left _ _)
    have m3 : (7/10 : ℚ) ≤
        max (1 - NetworkQualityDetector.calculateStdDev sq st.latencyHistory / 100) 0 :=
      le_trans (by linarith) (le_max_left _ _)
    have m4 : (17/20 : ℚ) ≤
        max (1 - NetworkQualityDetector.calculateStdDev sq st.latencyHistory / 200) 0 :=
      le_trans (by linarith) (le_max_left _ _)
    have ej : NetworkQualityDetector.getJitterStability sq st =
        NetworkQualityDetector.calculateStdDev sq st.latencyHistory := rfl
    have er : NetworkQualityDetector.getRttStability sq st =
        NetworkQualityDetector.calculateStdDev sq st.latencyHistory := by
      rw [rtt_eq_jitter]
      exact ej
    simp only [NetworkQualityDetector.calculateStabilityScore, ej, er]
    rw [if_neg (by linarith : ¬ (1/10 : ℚ) < d)]
    have h68 : (68 : ℚ) = jsRound (4099/60) := by norm_num [jsRound]
    rw [h68]
    apply jsRound_mono
    apply le_trans _ (le_max_right 0 _)
    apply le_min (by norm_num)
    linarith [n1, n2, n3, n4, m1, m2, m3, m4]

/-- The uniformity score of every video analysis is nonnegative (its
normalized standard deviation is capped at 1 before being subtracted). -/
lemma video_uniformityScore_nonneg (sq : ℚ → ℚ) (vIn : Option (List ℚ)) (vh : List ℚ) :
    0 ≤ (VideoQualityDetector.analyze sq vIn vh).1.uniformityScore := by
  have hm : ∀ x : ℚ, 0 ≤ 1 - min x 1 := by
    intro x
    have := min_le_right x 1
    linarith
  cases vIn with
  | none => norm_num [VideoQualityDetector.analyze]
  | some ls =>
    have h1 : (VideoQualityDetector.analyze sq (some ls) vh).1.uniformityScore =
        (VideoQualityDetector.calculateUniformity sq ls).1 := rfl
    rw [h1]
    unfold VideoQualityDetector.calculateUniformity
    split_ifs with h
    · norm_num
    · dsimp only
      exact hm _

/-- Source `audioStatusToScore` on status `OK`. -/
lemma audioStatusToScore_ok (rms : ℚ) :
    audioStatusToScore .ok rms = max 85 (100 - |rms - 8/100| * 500) := rfl

/-- Source `videoStatusToScore` on status `OK`. -/
lemma videoStatusToScore_ok (u : ℚ) :
    videoStatusToScore .ok u = jsRound (85 + u * 15) := rfl

end QualityDetection

namespace QualityDetection

/-- C4 counterexample: with a degenerate (no peer connection) network
analysis the three analyzers report `OK`, `OK`, `Good`, yet the overall
quality is `round(0.4*85 + 0.4*85 + 0.2*0) = 68 < 80`, refuting the claimed
`overallQuality ≥ 80`. -/
theorem c4_counterexample :
    (AudioQualityDetector.analyze sqId none []).1.status = .ok ∧
    (VideoQualityDetector.analyze sqId none []).1.status = .ok ∧
    (NetworkQualityDetector.analyze sqId none netState0).1.status = .good ∧
    (calculateQualityScore (AudioQualityDetector.analyze sqId none []).1
      (VideoQualityDetector.analyze sqId none []).1
      (NetworkQualityDetector.analyze sqId none netState0).1).overallQuality = 68 := by
  refine ⟨rfl, rfl, rfl, ?_⟩
  have habs : |(0 : ℚ) - 8/100| = 8/100 := by
    rw [zero_sub, abs_neg]
    exact abs_of_pos (by norm_num)
  have habs2 : |(2 : ℚ)/25| = 2/25 := abs_of_pos (by norm_num)
  norm_num [calculateQualityScore, audioStatusToScore, videoStatusToScore,
    AudioQualityDetector.analyze, VideoQualityDetector.analyze,
    NetworkQualityDetector.analyze, jsRound, habs, habs2]

/-- C4 (amended): whenever the audio analyzer reports `OK`, the video
analyzer reports `OK`, and the network analyzer reports `Good` *from an
actual stats poll* (peer connection present), the composite scorer yields
overall status `Good` and `overallQuality ≥ 80`.  (The degenerate
no-connection network analysis also reports `Good` but carries
`stabilityScore = 0` and yields `overallQuality = 68`, hence the poll
requirement.) -/
theorem c4_amended_composite (sq : ℚ → ℚ) (aIn : Option (List ℤ)) (aw : List ℚ)
    (vIn : Option (List ℚ)) (vh : List ℚ) (snap : StatsSnapshot) (st : NetState)
    (ha : (AudioQualityDetector.analyze sq aIn aw).1.status = .ok)
    (hv : (VideoQualityDetector.analyze sq vIn vh).1.status = .ok)
    (hn : (NetworkQualityDetector.analyze sq (some snap) st).1.status = .good) :
    calculateOverallStatus (AudioQualityDetector.analyze sq aIn aw).1
      (VideoQualityDetector.analyze sq vIn vh).1
      (NetworkQualityDetector.analyze sq (some snap) st).1 = .good ∧
    80 ≤ (calculateQualityScore (AudioQualityDetector.analyze sq aIn aw).1
      (VideoQualityDetector.analyze sq vIn vh).1
      (NetworkQualityDetector.analyze sq (some snap) st).1).overallQuality := by
  constructor
  · simp [calculateOverallStatus, ha, hv, hn, AudioStatus.str, VideoStatus.str,
      NetworkStatus.str, criticalStatuses, poorStatuses]
  · obtain ⟨st5, b, l, lat, f, d, hstat, hscore⟩ := analyze_fields sq snap st
    rw [hstat] at hn
    have hnet : 68 ≤ (NetworkQualityDetector.analyze sq (some snap) st).1.stabilityScore := by
      rw [hscore]
      exact netGood_score_bound sq st5 b l lat f d hn
    have hu : 0 ≤ (VideoQualityDetector.analyze sq vIn vh).1.uniformityScore :=
      video_uniformityScore_nonneg sq vIn vh
    simp only [calculateQualityScore, ha, hv, audioStatusToScore_ok, videoStatusToScore_ok]
    have hAS : (85 : ℚ) ≤
        max 85 (100 - |(AudioQualityDetector.analyze sq aIn aw).1.rms - 8/100| * 500) :=
      le_max_left _ _
    have hVS : (85 : ℚ) ≤
        jsRound (85 + (VideoQualityDetector.analyze sq vIn vh).1.uniformityScore * 15) := by
      have h85 : (85 : ℚ) = jsRound 85 := by norm_num [jsRound]
      rw [h85]
      apply jsRound_mono
      nlinarith [hu]
    apply le_trans _ (le_max_right 0 _)
    apply le_min (by norm_num)
    have h80 : (80 : ℚ) ≤ jsRound (408/5) := by norm_num [jsRound]
    refine le_trans h80 (jsRound_mono ?_)
    linarith [hAS, hVS, hnet]

end QualityDetection

namespace QualityDetection

/-- A 21-sample audio buffer whose every byte is 160 (normalized magnitude
1/4): no clipping, RMS 1/16 within the OK band, no background noise. -/
def c4buf : List ℤ :=
  [160, 160, 160, 160, 160, 160, 160, 160, 160, 160, 160,
   160, 160, 160, 160, 160, 160, 160, 160, 160, 160]

/-- A stats poll giving bitrate 1000 kbps, packet loss 0, latency 50 ms,
30 fps and frame-drop ratio 0 against a fresh state. -/
def c4snap : StatsSnapshot :=
  ⟨some 125000, some 0, some 1000, some 30, none, none, some (1/20), 1000⟩

/-- C4 witness: the amended composite bound at concrete OK/OK/Good
analyzer runs. -/
theorem c4_witness :
    calculateOverallStatus (AudioQualityDetector.analyze sqId (some c4buf) []).1
      (VideoQualityDetector.analyze sqId (some [100, 100]) []).1
      (NetworkQualityDetector.analyze sqId (some c4snap) netState0).1 = .good ∧
    80 ≤ (calculateQualityScore (AudioQualityDetector.analyze sqId (some c4buf) []).1
      (VideoQualityDetector.analyze sqId (some [100, 100]) []).1
      (NetworkQualityDetector.analyze sqId (some c4snap) netState0).1).overallQuality := by
  have habs : |(1 : ℚ)/4| = 1/4 := abs_of_pos (by norm_num)
  have ha : (AudioQualityDetector.analyze sqId (some c4buf) []).1.status = .ok := by
    norm_num [AudioQualityDetector.analyze, AudioQualityDetector.calculateRMS,
      AudioQualityDetector.detectClipping, AudioQualityDetector.estimateNoiseFloor,
      AudioQualityDetector.detectBackgroundNoise, normalizeByte, pushWindow,
      c4buf, sqId, List.countP, List.countP.go, List.insertionSort, List.orderedInsert,
      cond_eq_if, decide_eq_true_eq, habs]
  have hv : (VideoQualityDetector.analyze sqId (some [100, 100]) []).1.status = .ok := by
    norm_num [VideoQualityDetector.analyze, VideoQualityDetector.calculateAverageBrightness,
      VideoQualityDetector.calculateUniformity, VideoQualityDetector.calculateFluctuation,
      pushWindow, sqId]
  have hn : (NetworkQualityDetector.analyze sqId (some c4snap) netState0).1.status = .good := by
    norm_num [NetworkQualityDetector.analyze, NetworkQualityDetector.bitrateStep,
      NetworkQualityDetector.fpsStep, NetworkQualityDetector.framesInfo,
      NetworkQualityDetector.latencyStep, NetworkQualityDetector.calculateBitrate,
      NetworkQualityDetector.netStatus, NetworkQualityDetector.calculateStdDev,
      NetworkQualityDetector.getBitrateStability, NetworkQualityDetector.getLossStability,
      NetworkQualityDetector.calculateLossTrend, pushWindow, c4snap, netState0, sqId]
  exact c4_amended_composite sqId (some c4buf) [] (some [100, 100]) [] c4snap netState0 ha hv hn

end QualityDetection

namespace QualityDetection

/-- C2 witness: the chain characterization applied at a concrete metric
tuple (bitrate 100 < 250 forces `Critical`). -/
theorem c2_witness :
    NetworkQualityDetector.netStatus 100 0 0 30 0 0 0 0 = .critical :=
  (c2_network_status_chain.1 100 0 0 30 0 0 0 0).1.mpr (Or.inl (by norm_num))

/-- C3 witness: the lattice applied at concrete analyses (audio `Too Loud`
forces overall `Critical`). -/
theorem c3_witness :
    calculateOverallStatus ⟨0, false, 0, 0, "unknown", .tooLoud⟩
      ⟨0, 0, 0, false, 0, .ok⟩
      ⟨0, 0, 0, 0, 0, 0, 0, 0, 0, 0, 0, .good⟩ = .critical :=
  (c3_overall_status_lattice ⟨0, false, 0, 0, "unknown", .tooLoud⟩
    ⟨0, 0, 0, false, 0, .ok⟩
    ⟨0, 0, 0, 0, 0, 0, 0, 0, 0, 0, 0, .good⟩).1.mpr (Or.inl rfl)

/-- C6 witness: the degenerate results at concrete empty state. -/
theorem c6_witness :
    AudioQualityDetector.analyze sqId none [] = (⟨0, false, 0, 0, "unknown", .ok⟩, []) ∧
    VideoQualityDetector.analyze sqId none [] = (⟨0, 0, 0, false, 0, .ok⟩, []) ∧
    NetworkQualityDetector.analyze sqId none netState0 =
      (⟨0, 0, 0, 0, 0, 0, 0, 0, 0, 0, 0, .good⟩, netState0) :=
  c6_degenerate_inputs sqId [] [] netState0

/-- C10 witness: the field equality at a concrete poll. -/
theorem c10_witness :
    (NetworkQualityDetector.analyze sqId (some c2snap) netState0).1.rttStability =
      (NetworkQualityDetector.analyze sqId (some c2snap) netState0).1.jitterStability :=
  (c10_rtt_eq_jitter sqId (some c2snap) netState0).1

end QualityDetection
